import Mathlib

/-!
# Verification of the obsidian-pseudo-mica plugin

Shallow embedding of the plugin's core routines (`src/main.ts` and the
settings-enabled variant in `src/unnamed/part_000`), together with theorems
settling the specification claims.

The plugin is event-driven DOM/canvas code.  We model:

* `processWallpaperImage` as the trace of canvas operations it performs
  (the function has no data-dependent branching, so the trace is a pure
  function of the image and target dimensions);
* the position-tracking loop (`updatePosition`), the debounced resize
  handler, the cleanup callback, `initialize`/`initializeWallpaper`, and
  `getWallpaperPath` as explicit state-transition functions;
* the settings object (`loadSettings`, slider change, reset) of the
  part_000 variant, with `blurSize` as an `Option Int` field so that
  "always has a blurSize value" is a non-trivial invariant.
-/

namespace PseudoMica

/-! ## Canvas-operation trace of `processWallpaperImage` (src/main.ts, lines 12-75)

`BLUR_SIZE = 240`, `BLUR_PASSES = 3` are the constants of `main.ts`.
Each constructor of `CanvasOp` records one canvas call with its arguments,
in the order the source performs them.  The blur filter is recorded
symbolically as `setBlurFilter px sqrtArg`, standing for the CSS filter
`blur((px / sqrt sqrtArg)px)` — the source computes `BLUR_SIZE / Math.sqrt(3)`. -/

def BLUR_SIZE : Nat := 240

def BLUR_PASSES : Nat := 3

inductive CanvasOp where
  | setWorkCanvasSize (w h : Nat)
  | setSmoothingHigh
  | drawImageAt (dx dy : Nat)
  | drawWork (sx sy sw sh dx dy dw dh : Nat)
  | getImageDataOp (x y w h : Nat)
  | putImageDataOp (x y : Nat)
  | setBlurFilter (px sqrtArg : Nat)
  | blurPassDraw (dx dy : Nat)
  | setFinalCanvasSize (w h : Nat)
  | drawFinal (sx sy sw sh dx dy dw dh : Nat)
  | toDataURLJpeg
deriving Repr, DecidableEq

/-- The 8-argument parameter records of the `edges` array in the source. -/
structure EdgeParams where
  sx : Nat
  sy : Nat
  sw : Nat
  sh : Nat
  dx : Nat
  dy : Nat
  dw : Nat
  dh : Nat
deriving Repr, DecidableEq

/-- The `edges` array of `processWallpaperImage`: top, bottom, left, right
1-pixel strips stretched outward by `BLUR_SIZE`. -/
def edges (imgW imgH : Nat) : List EdgeParams :=
  [ ⟨BLUR_SIZE, BLUR_SIZE, imgW, 1, BLUR_SIZE, 0, imgW, BLUR_SIZE⟩,
    ⟨BLUR_SIZE, imgH + BLUR_SIZE - 1, imgW, 1, BLUR_SIZE, imgH + BLUR_SIZE, imgW, BLUR_SIZE⟩,
    ⟨BLUR_SIZE, BLUR_SIZE, 1, imgH, 0, BLUR_SIZE, BLUR_SIZE, imgH⟩,
    ⟨imgW + BLUR_SIZE - 1, BLUR_SIZE, 1, imgH, imgW + BLUR_SIZE, BLUR_SIZE, BLUR_SIZE, imgH⟩ ]

/-- The `cornerPositions` array of `processWallpaperImage`. -/
def cornerPositions (imgW imgH : Nat) : List (Nat × Nat) :=
  [ (0, 0),
    (imgW + BLUR_SIZE, 0),
    (0, imgH + BLUR_SIZE),
    (imgW + BLUR_SIZE, imgH + BLUR_SIZE) ]

/-- The sequence of canvas operations performed by `processWallpaperImage`
in `src/main.ts` on an image of size `imgW × imgH` with target size
`targetW × targetH`, assembled exactly as the source does it:
the edge draws via `edges.forEach`, the corner fills via
`cornerPositions.forEach`, and the blur passes via a `for`-loop of
`BLUR_PASSES` iterations. -/
def processWallpaperImage (imgW imgH targetW targetH : Nat) : List CanvasOp :=
  [ CanvasOp.setWorkCanvasSize (imgW + BLUR_SIZE * 2) (imgH + BLUR_SIZE * 2),
    CanvasOp.setSmoothingHigh,
    CanvasOp.drawImageAt BLUR_SIZE BLUR_SIZE ]
  ++ (edges imgW imgH).map
      (fun p => CanvasOp.drawWork p.sx p.sy p.sw p.sh p.dx p.dy p.dw p.dh)
  ++ [ CanvasOp.getImageDataOp BLUR_SIZE BLUR_SIZE 1 1 ]
  ++ (cornerPositions imgW imgH).map (fun q => CanvasOp.putImageDataOp q.1 q.2)
  ++ [ CanvasOp.setBlurFilter BLUR_SIZE 3 ]
  ++ (List.range BLUR_PASSES).map (fun _ => CanvasOp.blurPassDraw 0 0)
  ++ [ CanvasOp.setFinalCanvasSize targetW targetH,
       CanvasOp.drawFinal BLUR_SIZE BLUR_SIZE imgW imgH 0 0 targetW targetH,
       CanvasOp.toDataURLJpeg ]

/-- The kind of a canvas operation, forgetting its arguments. -/
def CanvasOp.kind : CanvasOp → Nat
  | CanvasOp.setWorkCanvasSize _ _ => 0
  | CanvasOp.setSmoothingHigh => 1
  | CanvasOp.drawImageAt _ _ => 2
  | CanvasOp.drawWork _ _ _ _ _ _ _ _ => 3
  | CanvasOp.getImageDataOp _ _ _ _ => 4
  | CanvasOp.putImageDataOp _ _ => 5
  | CanvasOp.setBlurFilter _ _ => 6
  | CanvasOp.blurPassDraw _ _ => 7
  | CanvasOp.setFinalCanvasSize _ _ => 8
  | CanvasOp.drawFinal _ _ _ _ _ _ _ _ => 9
  | CanvasOp.toDataURLJpeg => 10

/-! ## Position tracking (src/main.ts, `setupPositionTracking`, lines 139-166) -/

/-- The plugin's `lastPosition` record, initialised to
`{ x: 0, y: 0, width: 0, height: 0 }`. -/
structure Position where
  x : Int
  y : Int
  width : Int
  height : Int
deriving Repr, DecidableEq

/-- The browser window state read by the tracking loop: `window.screenX`,
`window.screenY`, `window.screen.width`, `window.screen.height`. -/
structure WindowState where
  screenX : Int
  screenY : Int
  screenWidth : Int
  screenHeight : Int
deriving Repr, DecidableEq

/-- The mutable state touched by one tick of the tracking loop:
`lastPosition`, `styleEl.textContent` and `frameRequest`. -/
structure TrackState where
  lastPosition : Position
  styleText : String
  frameRequest : Option Nat
deriving Repr, DecidableEq

/-- The template-literal block the loop appends to `styles`:
`body::before { transform: translate(<tx>px, <ty>px); }` with the source's
exact whitespace. -/
def transformBlock (tx ty : Int) : String :=
  "\n                  body::before \x7b\n                      transform: translate(" ++
    toString tx ++ "px, " ++ toString ty ++ "px);\n                  \x7d"

/-- One tick of `updatePosition` in `src/main.ts`: when the window position
differs from `lastPosition`, copy `screenX`/`screenY` into `lastPosition`
(via `Object.assign`, which leaves `width`/`height` untouched) and rewrite
the style element; then re-request an animation frame (`fid` is the id
returned by `requestAnimationFrame`). -/
def updatePosition (styles : String) (w : WindowState) (s : TrackState)
    (fid : Nat) : TrackState :=
  let s1 :=
    if s.lastPosition.x != w.screenX || s.lastPosition.y != w.screenY then
      { s with
        lastPosition := { s.lastPosition with x := w.screenX, y := w.screenY },
        styleText := styles ++
          "\n                  body::before \x7b\n                      transform: translate(" ++
          toString (-w.screenX) ++ "px, " ++ toString (-w.screenY) ++
          "px);\n                  \x7d" }
    else s
  { s1 with frameRequest := some fid }

/-! ## Wallpaper path discovery (src/main.ts, `getWallpaperPath`, lines 168-176) -/

/-- `getWallpaperPath`: returns `""` off Windows; otherwise shells out to
PowerShell.  `execResult` models the promisified `exec` call: `Except.error`
is a rejected promise (non-zero exit or spawn failure), `Except.ok` carries
the captured stdout.  The `try`/`catch` maps any error to `""`. -/
def getWallpaperPath (platform : String) (execResult : Except String String) :
    String :=
  if platform ≠ "win32" then ""
  else
    match execResult with
    | Except.error _ => ""
    | Except.ok stdout => stdout.trim

/-! ## Plugin lifecycle (src/main.ts, `initialize` and `initializeWallpaper`,
lines 97-137)

The DOM and plugin fields these methods touch, as an explicit state.  The
result of the (async) `processWallpaperImage` call is passed in as an
`Except`: `Except.error` models a thrown exception reaching the `catch` of
the idle callback. -/

structure Dom where
  headHasStyleEl : Bool
  bodyClasses : List String
deriving Repr, DecidableEq

structure PluginState where
  dom : Dom
  styleElText : String
  trackingStarted : Bool
  resizeListenerOn : Bool
  buttonPosListenerOn : Bool
  isInitialized : Bool
  log : List String
deriving Repr, DecidableEq

/-- The static style rule built in `initializeWallpaper` from the screen
dimensions and the base64 wallpaper image. -/
def wallpaperStyles (screenW screenH : Int) (base64Image : String) : String :=
  "\n                  body::before \x7b\n                      width: " ++
    toString screenW ++ "px;\n                      height: " ++
    toString screenH ++
    "px;\n                      background-image: url(data:image/jpeg;base64," ++
    base64Image ++ ");\n                  \x7d\n              "

/-- `initializeWallpaper` (src/main.ts): returns immediately when the
discovered wallpaper path is empty; otherwise runs the idle callback, whose
`try`/`catch` logs a failed `processWallpaperImage` to the console and
otherwise appends the style element to the head, sets its text, and starts
position tracking (`setupPositionTracking` adds the resize listener and
requests the first animation frame). -/
def initializeWallpaper (wallpaperPath : String)
    (procResult : Except String String) (screenW screenH : Int)
    (s : PluginState) : PluginState :=
  if wallpaperPath = "" then s
  else
    match procResult with
    | Except.error e =>
        { s with log := s.log ++ ["Failed to set wallpaper background: " ++ e] }
    | Except.ok base64Image =>
        { s with
          dom := { s.dom with headHasStyleEl := true },
          styleElText := wallpaperStyles screenW screenH base64Image,
          trackingStarted := true,
          resizeListenerOn := true }

/-- `initialize` (src/main.ts): guarded by `isInitialized`; on the first call
it sets the flag, then on darwin positions the window buttons and registers a
resize listener, and on win32 (unless `mica-off` is set on the body) runs
`initializeWallpaper` and adds the `is-translucent` body class. -/
def initializePlugin (platform wallpaperPath : String)
    (procResult : Except String String) (screenW screenH : Int)
    (s : PluginState) : PluginState :=
  if s.isInitialized then s
  else
    let s0 := { s with isInitialized := true }
    if platform = "darwin" then
      { s0 with buttonPosListenerOn := true }
    else if !s0.dom.bodyClasses.contains "mica-off" && platform == "win32" then
      let s1 := initializeWallpaper wallpaperPath procResult screenW screenH s0
      { s1 with dom := { s1.dom with bodyClasses := s1.dom.bodyClasses ++ ["is-translucent"] } }
    else s0

/-! ## Cleanup (src/main.ts, the `register` callback, lines 160-165)

`World` adds the host's pending-callback tables so that cancelling can be
observed: `pendingFrames` are ids of not-yet-fired `requestAnimationFrame`
callbacks, `pendingTimers` ids of not-yet-fired `setTimeout` timers,
`resizeListeners` the handlers registered for the window resize event, and
`headChildren` the elements in `document.head` (the plugin's style element
is `"styleEl"`). -/

structure World where
  pendingFrames : List Nat
  pendingTimers : List Nat
  resizeListeners : List String
  headChildren : List String
  bodyClasses : List String
  lastPosition : Position
  frameRequest : Option Nat
  resizeTimer : Option Nat
  styleElText : String
  isInitialized : Bool
deriving Repr, DecidableEq

/-- The cleanup callback passed to `register`: cancel the pending animation
frame when `frameRequest` is set, clear the debounce timer when
`resizeTimer` is set, remove the resize listener, and remove the style
element from the document. -/
def cleanupTracking (w : World) : World :=
  let w1 :=
    match w.frameRequest with
    | some fid => { w with pendingFrames := w.pendingFrames.filter (· ≠ fid) }
    | none => w
  let w2 :=
    match w1.resizeTimer with
    | some tid => { w1 with pendingTimers := w1.pendingTimers.filter (· ≠ tid) }
    | none => w1
  let w3 := { w2 with resizeListeners := w2.resizeListeners.filter (· ≠ "handleResize") }
  { w3 with headChildren := w3.headChildren.filter (· ≠ "styleEl") }

/-! ## Settings (src/unnamed/part_000)

The part_000 variant persists a `PseudoMicaSettings` object through the
host's key-value store.  The raw JavaScript object may lack the `blurSize`
property (the data loaded by `loadData` is untyped), so `blurSize` is
modelled as `Option Int`; `loadSettings` merges via
`Object.assign({}, DEFAULT_SETTINGS, await this.loadData())`, where
`loadData` can return no object at all (`none`) or an object possibly
missing `blurSize`. -/

structure SettingsObj where
  blurSize : Option Int
deriving Repr, DecidableEq

def DEFAULT_SETTINGS : SettingsObj := { blurSize := some 240 }

/-- `Object.assign({}, DEFAULT_SETTINGS, data)`: properties of `data`
override the defaults, and a missing property keeps the default. -/
def objectAssignSettings (dflt : SettingsObj) (data : Option SettingsObj) :
    SettingsObj :=
  match data with
  | none => dflt
  | some d =>
      { blurSize :=
          match d.blurSize with
          | some v => some v
          | none => dflt.blurSize }

/-- `loadSettings` of part_000. -/
def loadSettings (data : Option SettingsObj) : SettingsObj :=
  objectAssignSettings DEFAULT_SETTINGS data

/-- The assignment `this.plugin.settings.blurSize = value` performed by the
slider's `onChange` and (with the default value) by the reset button. -/
def setBlurSize (value : Int) (s : SettingsObj) : SettingsObj :=
  { s with blurSize := some value }

/-- Plugin state of the part_000 variant relevant to settings persistence:
the in-memory settings, the host key-value store (written by `saveData`),
and the flags touched by `saveSettings`' re-initialization path. -/
structure PState where
  settings : SettingsObj
  store : Option SettingsObj
  isInitialized : Bool
  styleInHead : Bool
  translucent : Bool
  pendingReinit : Bool
deriving Repr, DecidableEq

/-- `this.saveData(this.settings)`: persist the whole settings object. -/
def saveData (p : PState) : PState :=
  { p with store := some p.settings }

/-- `saveSettings` of part_000: persist through `saveData`; when the effect
is already initialized, tear it down (remove the style element and the
`is-translucent` class, clear the flag) and queue re-initialization through
`onLayoutReady` (the queued async callback is modelled as `pendingReinit`). -/
def saveSettings (p : PState) : PState :=
  let p1 := saveData p
  if p1.isInitialized then
    { p1 with
      styleInHead := false,
      translucent := false,
      isInitialized := false,
      pendingReinit := true }
  else p1

/-- The slider's `onChange` handler in `PseudoMicaSettingTab.display`:
set `blurSize` to the chosen value, then `saveSettings`. -/
def sliderOnChange (value : Int) (p : PState) : PState :=
  saveSettings { p with settings := setBlurSize value p.settings }

/-- The reset button's `onClick` handler: restore the default `blurSize`,
then `saveSettings`. -/
def resetClick (p : PState) : PState :=
  saveSettings { p with settings := setBlurSize 240 p.settings }

/-- The value set of the slider `setLimits(10, 500, 10)`. -/
def sliderValue (v : Int) : Prop :=
  10 ≤ v ∧ v ≤ 500 ∧ v % 10 = 0

instance (v : Int) : Decidable (sliderValue v) := by
  unfold sliderValue
  infer_instance

/-! ## Debounced resize handling (src/main.ts, `handleResize`, lines 152-155)

`TimerWorld` is the host's timer table: `pending` holds `(id, dueTime)`
pairs of not-yet-fired timers, `nextId` the next fresh timer id. -/

structure TimerWorld where
  pending : List (Nat × Nat)
  nextId : Nat
deriving Repr, DecidableEq

/-- `setTimeout(callback, delay)` at absolute due time `due`: registers a
fresh timer and returns its id. -/
def setTimeout (tw : TimerWorld) (due : Nat) : TimerWorld × Nat :=
  ({ pending := tw.pending ++ [(tw.nextId, due)], nextId := tw.nextId + 1 },
   tw.nextId)

/-- `clearTimeout(id)`: drop the timer with the given id, a no-op when it
already fired. -/
def clearTimeout (tw : TimerWorld) (id : Nat) : TimerWorld :=
  { tw with pending := tw.pending.filter (fun e => e.1 ≠ id) }

/-- The state seen by the resize handler: the host timer table and the
plugin's `resizeTimer` field. -/
structure ResizeState where
  timers : TimerWorld
  resizeTimer : Option Nat
deriving Repr, DecidableEq

/-- `handleResize` at time `now`:
`this.resizeTimer && clearTimeout(this.resizeTimer)`, then
`this.resizeTimer = setTimeout(updatePosition, 100)`. -/
def handleResize (s : ResizeState) (now : Nat) : ResizeState :=
  let tw :=
    match s.resizeTimer with
    | some id => clearTimeout s.timers id
    | none => s.timers
  let r := setTimeout tw (now + 100)
  { timers := r.1, resizeTimer := some r.2 }

/-- Invariant of the resize-handler state: every pending timer in the table
is the one tracked by `resizeTimer` (the only `setTimeout` caller in the
plugin is `handleResize`), and all pending ids are stale relative to
`nextId`. -/
def ResizeInv (s : ResizeState) : Prop :=
  (∀ e ∈ s.timers.pending, some e.1 = s.resizeTimer) ∧
  (∀ e ∈ s.timers.pending, e.1 < s.timers.nextId)

end PseudoMica

namespace PseudoMica

/-- C1: `processWallpaperImage` performs a fixed, input-independent sequence of
canvas operations: work canvas of size `(imgW + 2*BLUR_SIZE) × (imgH + 2*BLUR_SIZE)`,
the image drawn at `(BLUR_SIZE, BLUR_SIZE)`, the four edges extended by stretching
1-pixel strips outward by `BLUR_SIZE`, the four `BLUR_SIZE` corners filled, exactly
3 blur passes of radius `BLUR_SIZE / sqrt 3`, and the central `imgW × imgH` region
scaled to `targetW × targetH`; the sequence of operation kinds is the same for
every input. -/
theorem processWallpaperImage_fixed_sequence (imgW imgH targetW targetH : Nat) :
    processWallpaperImage imgW imgH targetW targetH =
      [ CanvasOp.setWorkCanvasSize (imgW + 2 * BLUR_SIZE) (imgH + 2 * BLUR_SIZE),
        CanvasOp.setSmoothingHigh,
        CanvasOp.drawImageAt BLUR_SIZE BLUR_SIZE,
        CanvasOp.drawWork BLUR_SIZE BLUR_SIZE imgW 1 BLUR_SIZE 0 imgW BLUR_SIZE,
        CanvasOp.drawWork BLUR_SIZE (imgH + BLUR_SIZE - 1) imgW 1 BLUR_SIZE
          (imgH + BLUR_SIZE) imgW BLUR_SIZE,
        CanvasOp.drawWork BLUR_SIZE BLUR_SIZE 1 imgH 0 BLUR_SIZE BLUR_SIZE imgH,
        CanvasOp.drawWork (imgW + BLUR_SIZE - 1) BLUR_SIZE 1 imgH
          (imgW + BLUR_SIZE) BLUR_SIZE BLUR_SIZE imgH,
        CanvasOp.getImageDataOp BLUR_SIZE BLUR_SIZE 1 1,
        CanvasOp.putImageDataOp 0 0,
        CanvasOp.putImageDataOp (imgW + BLUR_SIZE) 0,
        CanvasOp.putImageDataOp 0 (imgH + BLUR_SIZE),
        CanvasOp.putImageDataOp (imgW + BLUR_SIZE) (imgH + BLUR_SIZE),
        CanvasOp.setBlurFilter BLUR_SIZE 3,
        CanvasOp.blurPassDraw 0 0,
        CanvasOp.blurPassDraw 0 0,
        CanvasOp.blurPassDraw 0 0,
        CanvasOp.setFinalCanvasSize targetW targetH,
        CanvasOp.drawFinal BLUR_SIZE BLUR_SIZE imgW imgH 0 0 targetW targetH,
        CanvasOp.toDataURLJpeg ] ∧
    (processWallpaperImage imgW imgH targetW targetH).map CanvasOp.kind =
      [0, 1, 2, 3, 3, 3, 3, 4, 5, 5, 5, 5, 6, 7, 7, 7, 8, 9, 10] := by
  constructor
  · simp [processWallpaperImage, edges, cornerPositions, BLUR_PASSES,
      List.range_succ, Nat.mul_comm]
  · simp [processWallpaperImage, edges, cornerPositions, BLUR_PASSES,
      List.range_succ, CanvasOp.kind]

/-- C2, counterexample: the claim says that after a tick the position record
equals the window's full screen position including the screen width/height.
With the window at `(5, 7)` on a `1920 × 1080` screen and the initial record
`{0, 0, 0, 0}`, the tick leaves `width = 0 ≠ 1920`: `Object.assign` only
copies `x` and `y`. -/
theorem updatePosition_full_sync_cex :
    ¬ ((updatePosition "" ⟨5, 7, 1920, 1080⟩ ⟨⟨0, 0, 0, 0⟩, "", none⟩ 1).lastPosition =
        Position.mk 5 7 1920 1080) := by
  decide

/-- C2, amended: on every tick of `updatePosition` the record's `x` and `y`
are made equal to `window.screenX` and `window.screenY` (trivially so when
they already were), but `width` and `height` are never modified — the
`Object.assign` in `src/main.ts` writes only `x` and `y`. -/
theorem updatePosition_xy_sync (styles : String) (w : WindowState)
    (s : TrackState) (fid : Nat) :
    (updatePosition styles w s fid).lastPosition.x = w.screenX ∧
    (updatePosition styles w s fid).lastPosition.y = w.screenY ∧
    (updatePosition styles w s fid).lastPosition.width = s.lastPosition.width ∧
    (updatePosition styles w s fid).lastPosition.height = s.lastPosition.height := by
  unfold updatePosition
  by_cases hx : s.lastPosition.x = w.screenX <;>
    by_cases hy : s.lastPosition.y = w.screenY <;>
      simp [hx, hy]

/-- C3: `getWallpaperPath` returns `""` whenever the platform is not
`win32`, returns `""` whenever the shell-out throws (the `catch` swallows
the exception: the function is total and never propagates it), and on a
successful shell-out on `win32` returns the stdout with surrounding
whitespace trimmed. -/
theorem getWallpaperPath_spec (platform : String)
    (execResult : Except String String) :
    (platform ≠ "win32" → getWallpaperPath platform execResult = "") ∧
    (∀ e, execResult = Except.error e →
      getWallpaperPath platform execResult = "") ∧
    (∀ out, platform = "win32" → execResult = Except.ok out →
      getWallpaperPath platform execResult = out.trim) := by
  refine ⟨fun h => ?_, fun e he => ?_, fun out hp ho => ?_⟩
  · simp [getWallpaperPath, h]
  · subst he
    by_cases hp : platform = "win32" <;> simp [getWallpaperPath, hp]
  · subst hp; subst ho
    simp [getWallpaperPath]

/-- C3, witness: concrete evaluations of the three cases. -/
theorem getWallpaperPath_spec_witness :
    getWallpaperPath "linux" (Except.ok "x") = "" ∧
    getWallpaperPath "win32" (Except.error "boom") = "" ∧
    getWallpaperPath "win32" (Except.ok " C:\\wall.jpg ") = " C:\\wall.jpg ".trim := by
  refine ⟨?_, ?_, ?_⟩
  · exact (getWallpaperPath_spec "linux" (Except.ok "x")).1 (by decide)
  · exact (getWallpaperPath_spec "win32" (Except.error "boom")).2.1 "boom" rfl
  · exact (getWallpaperPath_spec "win32" (Except.ok " C:\\wall.jpg ")).2.2
      " C:\\wall.jpg " rfl rfl

/-- C6: whenever the tracked position differs from the window's current
screen position, the tick rewrites the style element to the base styles
followed by a `body::before` rule whose transform is
`translate(-screenX px, -screenY px)` — the exact negation of the window's
screen coordinates. -/
theorem updatePosition_transform (styles : String) (w : WindowState)
    (s : TrackState) (fid : Nat)
    (h : s.lastPosition.x ≠ w.screenX ∨ s.lastPosition.y ≠ w.screenY) :
    (updatePosition styles w s fid).styleText =
      styles ++ transformBlock (-w.screenX) (-w.screenY) := by
  have hcond : (s.lastPosition.x != w.screenX || s.lastPosition.y != w.screenY) = true := by
    rcases h with h | h <;> simp [h]
  simp [updatePosition, hcond, transformBlock, String.append_assoc]

/-- C6, witness: a concrete moved window. -/
theorem updatePosition_transform_witness :
    (updatePosition "" ⟨3, 4, 0, 0⟩ ⟨⟨0, 0, 0, 0⟩, "", none⟩ 1).styleText =
      "" ++ transformBlock (-3) (-4) :=
  updatePosition_transform "" ⟨3, 4, 0, 0⟩ ⟨⟨0, 0, 0, 0⟩, "", none⟩ 1
    (Or.inl (by decide))

/-- C4: failures during wallpaper processing are swallowed and logged.  When
the discovered path is empty, `initializeWallpaper` returns with no state or
DOM change at all; when `processWallpaperImage` throws inside the idle
callback, the only effect is a console log — nothing is rethrown (the
function is total), no style element is appended to the head, and position
tracking is not started. -/
theorem initializeWallpaper_swallows_failures (wallpaperPath : String)
    (procResult : Except String String) (screenW screenH : Int)
    (s : PluginState) :
    (wallpaperPath = "" →
      initializeWallpaper wallpaperPath procResult screenW screenH s = s) ∧
    (∀ e, wallpaperPath ≠ "" → procResult = Except.error e →
      initializeWallpaper wallpaperPath procResult screenW screenH s =
        { s with log := s.log ++ ["Failed to set wallpaper background: " ++ e] }) := by
  constructor
  · intro h
    simp [initializeWallpaper, h]
  · intro e hp he
    subst he
    simp [initializeWallpaper, hp]

/-- C4, witness: the empty-path case and a concrete throwing case. -/
theorem initializeWallpaper_swallows_failures_witness :
    initializeWallpaper "" (Except.ok "img") 1920 1080
        ⟨⟨false, []⟩, "", false, false, false, false, []⟩ =
      ⟨⟨false, []⟩, "", false, false, false, false, []⟩ ∧
    initializeWallpaper "C:\\wall.jpg" (Except.error "ENOENT") 1920 1080
        ⟨⟨false, []⟩, "", false, false, false, true, []⟩ =
      ⟨⟨false, []⟩, "", false, false, false, true,
        ["Failed to set wallpaper background: ENOENT"]⟩ := by
  constructor
  · exact (initializeWallpaper_swallows_failures "" (Except.ok "img") 1920 1080
      ⟨⟨false, []⟩, "", false, false, false, false, []⟩).1 rfl
  · exact (initializeWallpaper_swallows_failures "C:\\wall.jpg"
      (Except.error "ENOENT") 1920 1080
      ⟨⟨false, []⟩, "", false, false, false, true, []⟩).2 "ENOENT"
      (by decide) rfl

/-- `initializeWallpaper` never touches the `isInitialized` flag. -/
theorem initializeWallpaper_keeps_isInitialized (wallpaperPath : String)
    (procResult : Except String String) (screenW screenH : Int)
    (s : PluginState) :
    (initializeWallpaper wallpaperPath procResult screenW screenH s).isInitialized =
      s.isInitialized := by
  by_cases hp : wallpaperPath = "" <;>
    cases procResult <;> simp [initializeWallpaper, hp]

/-- After any call of `initializePlugin` the guard flag is set. -/
theorem initializePlugin_sets_flag (platform wallpaperPath : String)
    (procResult : Except String String) (screenW screenH : Int)
    (s : PluginState) :
    (initializePlugin platform wallpaperPath procResult screenW screenH s).isInitialized =
      true := by
  by_cases hs : s.isInitialized
  · simp [initializePlugin, hs]
  · simp only [initializePlugin, hs, if_false, Bool.false_eq_true]
    split
    · rfl
    · split
      · simp [initializeWallpaper_keeps_isInitialized]
      · rfl

/-- A call on an already-initialized state returns it unchanged. -/
theorem initializePlugin_of_initialized (platform wallpaperPath : String)
    (procResult : Except String String) (screenW screenH : Int)
    (t : PluginState) (h : t.isInitialized = true) :
    initializePlugin platform wallpaperPath procResult screenW screenH t = t := by
  simp [initializePlugin, h]

/-- C9: `initializePlugin` is idempotent — every call leaves the
`isInitialized` flag set, and a second call returns immediately with no
change to the plugin state or the document, so calling it twice is
observationally equal to calling it once. -/
theorem initializePlugin_idem (platform wallpaperPath : String)
    (procResult : Except String String) (screenW screenH : Int)
    (s : PluginState) :
    (initializePlugin platform wallpaperPath procResult screenW screenH s).isInitialized =
      true ∧
    initializePlugin platform wallpaperPath procResult screenW screenH
        (initializePlugin platform wallpaperPath procResult screenW screenH s) =
      initializePlugin platform wallpaperPath procResult screenW screenH s :=
  ⟨initializePlugin_sets_flag platform wallpaperPath procResult screenW screenH s,
   initializePlugin_of_initialized platform wallpaperPath procResult screenW screenH _
     (initializePlugin_sets_flag platform wallpaperPath procResult screenW screenH s)⟩

/-- C10: the cleanup callback cancels the pending animation frame and the
pending debounce timer when they exist, removes the resize listener and the
injected style element, and modifies nothing else: body classes, the
position record, the plugin fields and the style text are untouched, and
when no frame or timer is pending the host tables are untouched too. -/
theorem cleanupTracking_spec (w : World) :
    (∀ fid, w.frameRequest = some fid → fid ∉ (cleanupTracking w).pendingFrames) ∧
    (∀ tid, w.resizeTimer = some tid → tid ∉ (cleanupTracking w).pendingTimers) ∧
    "handleResize" ∉ (cleanupTracking w).resizeListeners ∧
    "styleEl" ∉ (cleanupTracking w).headChildren ∧
    (cleanupTracking w).bodyClasses = w.bodyClasses ∧
    (cleanupTracking w).lastPosition = w.lastPosition ∧
    (cleanupTracking w).frameRequest = w.frameRequest ∧
    (cleanupTracking w).resizeTimer = w.resizeTimer ∧
    (cleanupTracking w).styleElText = w.styleElText ∧
    (cleanupTracking w).isInitialized = w.isInitialized ∧
    (w.frameRequest = none → (cleanupTracking w).pendingFrames = w.pendingFrames) ∧
    (w.resizeTimer = none → (cleanupTracking w).pendingTimers = w.pendingTimers) := by
  rcases hf : w.frameRequest with _ | fid <;>
    rcases ht : w.resizeTimer with _ | tid <;>
      simp [cleanupTracking, hf, ht, List.mem_filter]

/-- C10, witness: a concrete world with one pending frame, one pending
timer, the listener and the style element present. -/
theorem cleanupTracking_spec_witness :
    (1 : Nat) ∉ (cleanupTracking
        ⟨[1], [2], ["handleResize"], ["styleEl"], ["is-translucent"],
          ⟨0, 0, 0, 0⟩, some 1, some 2, "", true⟩).pendingFrames ∧
    (2 : Nat) ∉ (cleanupTracking
        ⟨[1], [2], ["handleResize"], ["styleEl"], ["is-translucent"],
          ⟨0, 0, 0, 0⟩, some 1, some 2, "", true⟩).pendingTimers :=
  ⟨(cleanupTracking_spec
      ⟨[1], [2], ["handleResize"], ["styleEl"], ["is-translucent"],
        ⟨0, 0, 0, 0⟩, some 1, some 2, "", true⟩).1 1 rfl,
   (cleanupTracking_spec
      ⟨[1], [2], ["handleResize"], ["styleEl"], ["is-translucent"],
        ⟨0, 0, 0, 0⟩, some 1, some 2, "", true⟩).2.1 2 rfl⟩

/-- C5: the settings object always has a `blurSize` value — after
`loadSettings` it is defined, equal to the stored value when present and to
the default `240` when the store returns nothing or an object without
`blurSize`; and every later settings operation (the `blurSize` assignments
of the slider and reset handlers, and `saveSettings`) preserves this. -/
theorem settings_blurSize_defined (data : Option SettingsObj) :
    (loadSettings data).blurSize.isSome = true ∧
    (∀ v, data = some ⟨some v⟩ → (loadSettings data).blurSize = some v) ∧
    (data = none → (loadSettings data).blurSize = some 240) ∧
    (data = some ⟨none⟩ → (loadSettings data).blurSize = some 240) ∧
    (∀ v s, (setBlurSize v s).blurSize.isSome = true) ∧
    (∀ p : PState, (saveSettings p).settings = p.settings) := by
  refine ⟨?_, ?_, ?_, ?_, ?_, ?_⟩
  · rcases data with _ | ⟨_ | v⟩ <;>
      simp [loadSettings, objectAssignSettings, DEFAULT_SETTINGS]
  · intro v hv
    subst hv
    simp [loadSettings, objectAssignSettings]
  · intro hv
    subst hv
    simp [loadSettings, objectAssignSettings, DEFAULT_SETTINGS]
  · intro hv
    subst hv
    simp [loadSettings, objectAssignSettings, DEFAULT_SETTINGS]
  · intro v s
    simp [setBlurSize]
  · intro p
    by_cases hp : p.isInitialized <;> simp [saveSettings, saveData, hp]

/-- C5, witness: the three load cases at concrete stores. -/
theorem settings_blurSize_defined_witness :
    (loadSettings (some ⟨some 100⟩)).blurSize = some 100 ∧
    (loadSettings none).blurSize = some 240 ∧
    (loadSettings (some ⟨none⟩)).blurSize = some 240 :=
  ⟨(settings_blurSize_defined (some ⟨some 100⟩)).2.1 100 rfl,
   (settings_blurSize_defined none).2.2.1 rfl,
   (settings_blurSize_defined (some ⟨none⟩)).2.2.2.1 rfl⟩

/-- C7: a change of the blur-intensity slider (whose values are limited to
10..500 in steps of 10) sets `settings.blurSize` to the chosen value and
persists the whole settings object through the host store via `saveData`;
the reset button restores the default 240 and persists it the same way. -/
theorem sliderOnChange_persists (v : Int) (p : PState) (h : sliderValue v) :
    (sliderOnChange v p).settings.blurSize = some v ∧
    (sliderOnChange v p).store = some (sliderOnChange v p).settings ∧
    (resetClick p).settings.blurSize = some 240 ∧
    (resetClick p).store = some (resetClick p).settings := by
  by_cases hp : p.isInitialized <;>
    simp [sliderOnChange, resetClick, saveSettings, saveData, setBlurSize, hp]

/-- C7, witness: the slider moved to 100 on an active plugin. -/
theorem sliderOnChange_persists_witness :
    (sliderOnChange 100 ⟨⟨some 240⟩, none, true, true, true, false⟩).settings.blurSize =
      some 100 ∧
    (sliderOnChange 100 ⟨⟨some 240⟩, none, true, true, true, false⟩).store =
      some (sliderOnChange 100 ⟨⟨some 240⟩, none, true, true, true, false⟩).settings ∧
    (resetClick ⟨⟨some 240⟩, none, true, true, true, false⟩).settings.blurSize =
      some 240 ∧
    (resetClick ⟨⟨some 240⟩, none, true, true, true, false⟩).store =
      some (resetClick ⟨⟨some 240⟩, none, true, true, true, false⟩).settings :=
  sliderOnChange_persists 100 ⟨⟨some 240⟩, none, true, true, true, false⟩
    (by decide)

/-- One resize event under the invariant: the tracked timer is cleared, the
table ends up holding exactly the one fresh timer due 100 ms later, and the
invariant is preserved. -/
theorem handleResize_step (s : ResizeState) (now : Nat) (h : ResizeInv s) :
    (handleResize s now).timers.pending = [(s.timers.nextId, now + 100)] ∧
    (handleResize s now).resizeTimer = some s.timers.nextId ∧
    ResizeInv (handleResize s now) := by
  obtain ⟨h1, h2⟩ := h
  cases hr : s.resizeTimer with
  | none =>
      have hnil : s.timers.pending = [] := by
        rw [List.eq_nil_iff_forall_not_mem]
        intro e he
        have := h1 e he
        rw [hr] at this
        exact Option.noConfusion this
      refine ⟨?_, ?_, ?_⟩ <;>
        simp [handleResize, hr, setTimeout, hnil, ResizeInv]
  | some id =>
      have hnil : clearTimeout s.timers id = { s.timers with pending := [] } := by
        unfold clearTimeout
        congr 1
        rw [List.filter_eq_nil_iff]
        intro e he
        have := h1 e he
        rw [hr] at this
        have heq : e.1 = id := Option.some.inj this
        simp [heq]
      refine ⟨?_, ?_, ?_⟩ <;>
        simp [handleResize, hr, hnil, setTimeout, ResizeInv]

/-- A burst of further resize events keeps the table at exactly one pending
timer. -/
theorem handleResize_fold (ts : List Nat) :
    ∀ s : ResizeState, ResizeInv s → s.timers.pending.length = 1 →
      ResizeInv (ts.foldl handleResize s) ∧
      (ts.foldl handleResize s).timers.pending.length = 1 := by
  induction ts with
  | nil => intro s hinv hlen; exact ⟨hinv, hlen⟩
  | cons t ts ih =>
      intro s hinv _
      rw [List.foldl_cons]
      exact ih (handleResize s t) (handleResize_step s t hinv).2.2
        (by rw [(handleResize_step s t hinv).1]; rfl)

/-- C8: the resize handler debounces — each resize event first cancels the
pending timer and then schedules a single update 100 ms later, so after the
event exactly one resize-triggered update is pending, the invariant that
the tracked timer is the only pending one is preserved, and any further
burst of resize events still leaves exactly one pending update. -/
theorem handleResize_debounce (s : ResizeState) (now : Nat) (h : ResizeInv s) :
    (handleResize s now).timers.pending = [(s.timers.nextId, now + 100)] ∧
    ResizeInv (handleResize s now) ∧
    ∀ ts : List Nat,
      (ts.foldl handleResize (handleResize s now)).timers.pending.length = 1 := by
  refine ⟨(handleResize_step s now h).1, (handleResize_step s now h).2.2, ?_⟩
  intro ts
  exact (handleResize_fold ts (handleResize s now)
    (handleResize_step s now h).2.2
    (by rw [(handleResize_step s now h).1]; rfl)).2

/-- C8, witness: the first resize event from the initial state, followed by
a burst of three more. -/
theorem handleResize_debounce_witness :
    (handleResize ⟨⟨[], 0⟩, none⟩ 0).timers.pending = [(0, 100)] ∧
    ([16, 17, 18].foldl handleResize (handleResize ⟨⟨[], 0⟩, none⟩ 0)).timers.pending.length =
      1 :=
  ⟨(handleResize_debounce ⟨⟨[], 0⟩, none⟩ 0 (by simp [ResizeInv])).1,
   (handleResize_debounce ⟨⟨[], 0⟩, none⟩ 0 (by simp [ResizeInv])).2.2 [16, 17, 18]⟩

end PseudoMica
